import Mathlib

/-!
Shallow embedding of the speech-pipeline orchestrator of the
multilingual-avatar-backend repository (app/tts/services.py and
app/tts/viseme_map.py), together with theorems settling the frozen
claims about its natural-language specification.

External AWS capabilities (Polly voice catalog, Polly synthesis,
Bedrock translation, Transcribe jobs, S3 object storage) are modelled
as oracle functions passed in as parameters; the control flow of the
Python source is translated faithfully.  Python exceptions from a
provider call are modelled with `Option` (`none` = the call raised),
and `raise HTTPException(status, detail)` is modelled with the
`PyResult.httpError status detail` constructor.
-/

namespace Avatar

/-- Python `str.strip()` on the character list: drop leading and trailing
whitespace. -/
def stripChars (cs : List Char) : List Char :=
  ((cs.dropWhile Char.isWhitespace).reverse.dropWhile Char.isWhitespace).reverse

/-- Python `str.strip()` (ASCII whitespace model). -/
def pyStrip (s : String) : String :=
  String.mk (stripChars s.toList)

/-- Python `s.endswith(suffix)`, computed on character lists. -/
def strEndsWith (s suffix : String) : Bool :=
  let cs := s.toList
  let tl := suffix.toList
  decide (tl.length ≤ cs.length) && (cs.drop (cs.length - tl.length) == tl)

/-- Python `s.lower()`, computed on character lists. -/
def strToLower (s : String) : String :=
  String.mk (s.toList.map Char.toLower)

/-- Result of a Python function that may `raise HTTPException(status, detail)`
or let a non-HTTP exception propagate (`pyError`). -/
inductive PyResult (α : Type) where
  | ok (val : α)
  | httpError (status : Nat) (detail : String)
  | pyError (msg : String)
  deriving Repr, DecidableEq

/-- A Polly voice as materialised by `_list_polly_voices_by_lang`
(services.py lines 83-88): id, gender and language code strings. -/
structure Voice where
  id : String
  gender : String
  language_code : String
  deriving Repr, DecidableEq

/-- The `_NEAR_LOCALE` fallback table (services.py lines 41-46). -/
def NEAR_LOCALE (l : String) : List String :=
  if l = "zh-CN" then ["zh-TW"]
  else if l = "zh-TW" then ["zh-CN"]
  else if l = "es-ES" then ["es-MX"]
  else if l = "es-MX" then ["es-ES"]
  else if l = "en-GB" then ["en-US"]
  else if l = "en-US" then ["en-GB"]
  else if l = "pt-BR" then ["pt-PT"]
  else if l = "pt-PT" then ["pt-BR"]
  else []

/-- The `_DEFAULT_PRIORITY` voice ordering (services.py lines 48-51). -/
def DEFAULT_PRIORITY : List String :=
  ["Matthew", "Joanna", "Takumi", "Mizuki", "Seoyeon", "Zhiyu",
   "Amy", "Brian", "Emma", "Raveena", "Aditi", "Lupe", "Mia"]

/-- Python sort key `_DEFAULT_PRIORITY.index(c.id) if c.id in _DEFAULT_PRIORITY
else 999` (services.py line 119). -/
def priorityIndex (id : String) : Nat :=
  if id ∈ DEFAULT_PRIORITY then DEFAULT_PRIORITY.indexOf id else 999

/-- Strict comparison on the Python sort key `(priorityIndex id, id)`;
used to model the stable `pool.sort` call. -/
def voiceKeyLt (a b : Voice) : Bool :=
  decide (priorityIndex a.id < priorityIndex b.id) ||
    (decide (priorityIndex a.id = priorityIndex b.id) && decide (a.id < b.id))

/-- Insert `x` into `ys`, placing it before the first element that is not
strictly below it.  Folding this from the right gives exactly the stable
sort semantics of Python `list.sort(key=...)`. -/
def insertKeyed (lt : α → α → Bool) (x : α) : List α → List α
  | [] => [x]
  | y :: ys => if lt y x then y :: insertKeyed lt x ys else x :: y :: ys

/-- Stable sort used to model `pool.sort(key=...)` (services.py line 119). -/
def sortByKey (lt : α → α → Bool) (xs : List α) : List α :=
  xs.foldr (insertKeyed lt) []

/-- The locale loop of `_pick_voice` (services.py lines 108-113): result of
the first catalog query in the candidate list that is non-empty. -/
def listFirstNonempty (listVoicesByLang : String → List Voice) : List String → List Voice
  | [] => []
  | lc :: rest =>
    let cand := listVoicesByLang lc
    if cand.isEmpty then listFirstNonempty listVoicesByLang rest else cand

/-- Candidate-pool construction of `_pick_voice` (services.py lines 107-115):
try `[target_lang] + _NEAR_LOCALE[target_lang]`, first non-empty query wins;
if all are empty, query the full unfiltered catalog (`lang = ""`). -/
def buildCandidates (listVoicesByLang : String → List Voice) (target_lang : String) :
    List Voice :=
  let candidates := listFirstNonempty listVoicesByLang (target_lang :: NEAR_LOCALE target_lang)
  if candidates.isEmpty then listVoicesByLang "" else candidates

/-- The gender guard of the comprehension on services.py line 118:
`user_gender and c["gender"].lower() == (user_gender or "").lower()`.
A `None` or empty `user_gender` is falsy, so nothing passes the filter. -/
def genderMatches (user_gender : Option String) (c : Voice) : Bool :=
  match user_gender with
  | none => false
  | some g => (g != "") && (strToLower c.gender == strToLower g)

/-- Error raised by `_pick_voice` when the pool is empty
(services.py line 122: HTTP 422 "No Polly voices available."). -/
inductive PickErr where
  | noVoices
  deriving Repr, DecidableEq

/-- `_pick_voice` (services.py lines 94-138).  The Polly catalog query
`_list_polly_voices_by_lang` and the per-voice Neural probe
`_supports_neural` are oracle parameters.  Returns `(voice_id, engine)`
or the HTTP 422 error of line 122. -/
def pick_voice (listVoicesByLang : String → List Voice) (supportsNeural : String → Bool)
    (target_lang : String) (user_gender : Option String) (neural_only : Bool) :
    Except PickErr (String × String) :=
  let candidates := buildCandidates listVoicesByLang target_lang
  let filtered := candidates.filter (genderMatches user_gender)
  let pool0 := if filtered.isEmpty then candidates else filtered
  let pool := sortByKey voiceKeyLt pool0
  match pool with
  | [] => .error .noVoices
  | top :: _ =>
    match pool.find? (fun c => supportsNeural c.id) with
    | some c => .ok (c.id, "neural")
    | none =>
      -- lines 130-136: whether or not neural_only is set, the top
      -- candidate is returned with the standard engine
      .ok (top.id, "standard")

theorem length_insertKeyed (lt : α → α → Bool) (x : α) (ys : List α) :
    (insertKeyed lt x ys).length = ys.length + 1 := by
  induction ys with
  | nil => rfl
  | cons y ys ih =>
    simp only [insertKeyed]
    split
    · simp [ih]
    · simp

theorem length_sortByKey (lt : α → α → Bool) (xs : List α) :
    (sortByKey lt xs).length = xs.length := by
  induction xs with
  | nil => rfl
  | cons x xs ih =>
    simp only [sortByKey, List.foldr] at *
    rw [length_insertKeyed, ih, List.length_cons]

theorem listFirstNonempty_eq_find (f : String → List Voice) (ls : List String) :
    listFirstNonempty f ls =
      match ls.find? (fun lc => !(f lc).isEmpty) with
      | some lc => f lc
      | none => [] := by
  induction ls with
  | nil => rfl
  | cons lc rest ih =>
    simp only [listFirstNonempty, List.find?]
    by_cases h : (f lc).isEmpty
    · simp [h, ih]
    · simp [h]

/-! ## Translation stage (`translate_text_bedrock`, services.py lines 142-164) -/

/-- The fixed system instruction (services.py lines 145-150), with the
optional style hint appended. -/
def systemPrompt (style : Option String) : String :=
  let base := "You are a precise translation engine. Translate the user text exactly from the source language to the target language, preserving meaning and tone. Return only the translated text."
  match style with
  | some st => base ++ " Style: " ++ st ++ "."
  | none => base

/-- The user-message content sent to the provider (services.py line 153). -/
def translatePrompt (src_lang tgt_lang text : String) : String :=
  "Source language: " ++ src_lang ++ "\nTarget language: " ++ tgt_lang ++ "\nText:\n" ++ text

/-- `translate_text_bedrock` (services.py lines 142-164).  The Bedrock
`converse` call is an oracle from (system instruction, user content) to
`Option` output (`none` = the provider raised).  The second component of
the result records whether the provider was invoked at all.  Note that the
target language is never inspected: there is no normalization step and no
supported-set check anywhere in the function. -/
def translate_text_bedrock (converse : String → String → Option String)
    (text src_lang tgt_lang : String) (style : Option String) :
    PyResult String × Bool :=
  if text = "" ∨ pyStrip text = "" then (.ok "", false)
  else
    match converse (systemPrompt style) (translatePrompt src_lang tgt_lang text) with
    | some out => (.ok (pyStrip out), true)
    | none => (.httpError 500 "Translation failed via Bedrock", true)

/-! ## Viseme normalization (`_map_visemes_to_shapes`, services.py lines
302-304, and the symbol table of viseme_map.py lines 7-43) -/

/-- The viseme symbol table of viseme_map.py (`_POLLY_TO_MORPH`,
lines 7-43); services.py imports it under the name `VISEME_MAP`. -/
def VISEME_MAP : List (String × String) :=
  [("p", "MBP"), ("b", "MBP"), ("m", "MBP"),
   ("t", "L"), ("d", "L"), ("l", "L"), ("n", "L"),
   ("f", "FV"), ("v", "FV"),
   ("s", "E"), ("z", "E"), ("S", "WQ"), ("Z", "WQ"), ("tS", "WQ"), ("dZ", "WQ"),
   ("i", "E"), ("I", "E"), ("e", "E"), ("E", "AA"), ("a", "AA"), ("A", "AA"),
   ("o", "O"), ("O", "O"), ("u", "WQ"), ("U", "WQ"), ("@", "AA")]

/-- Python `VISEME_MAP.get(symbol)`: first table entry whose key equals the
symbol, if any. -/
def vmLookup (symbol : String) : Option String :=
  (VISEME_MAP.find? (fun p => p.1 == symbol)).map (fun p => p.2)

/-- A raw viseme event as consumed by `_map_visemes_to_shapes`: a dict whose
`time_ms` and `viseme` keys may each be absent (`evt.get` with defaults). -/
structure RawEvt where
  time_ms : Option Nat
  viseme : Option String
  deriving Repr, DecidableEq

/-- A normalized event `{time_ms, shape}`. -/
structure ShapeEvt where
  time_ms : Nat
  shape : String
  deriving Repr, DecidableEq

/-- The body of the comprehension in `_map_visemes_to_shapes`
(services.py line 303): `{"time_ms": evt.get("time_ms", 0),
"shape": VISEME_MAP.get(evt.get("viseme", ""), "AX")}`. -/
def mapOneViseme (e : RawEvt) : ShapeEvt :=
  { time_ms := e.time_ms.getD 0
    shape := (vmLookup (e.viseme.getD "")).getD "AX" }

/-- `_map_visemes_to_shapes` (services.py lines 302-304). -/
def map_visemes_to_shapes (visemes_raw : List RawEvt) : List ShapeEvt :=
  visemes_raw.map mapOneViseme

/-- The canonical mouth shapes: the range of the symbol table together with
the default shape "AX" used by services.py for unrecognized symbols. -/
def canonicalShapes : List String :=
  ["MBP", "L", "FV", "E", "WQ", "AA", "O", "AX"]

/-! ## Synthesis stage (services.py lines 308-349) -/

/-- A `polly.synthesize_speech` request as issued by `_synthesize_audio`
and `_synthesize_marks`: text, voice, output format, engine, optional
sample rate, and whether viseme speech marks are requested. -/
structure SynthReq where
  text : String
  voiceId : String
  outputFormat : String
  engine : String
  sampleRate : Option Nat
  speechMarks : Bool
  deriving Repr, DecidableEq

/-- One line of the marker render after JSON parsing: `none` models a
malformed line (json.loads raised), otherwise the `type`, `time` and
`value` fields of the event. -/
structure RawMark where
  type : String
  time : Nat
  value : String
  deriving Repr, DecidableEq

/-- A raw viseme event produced by `_synthesize_marks`
(services.py line 318): `{"time_ms": ..., "viseme": ...}`. -/
structure VisemeRawEvt where
  time_ms : Nat
  viseme : String
  deriving Repr, DecidableEq

/-- The Polly synthesis capability: whether a given request succeeds, and
the payload it returns when it does (audio bytes for an mp3 render, parsed
mark lines for a json render). -/
structure PollyOracle where
  ok : SynthReq → Bool
  audioBytes : SynthReq → List Nat
  markLines : SynthReq → List (Option RawMark)

/-- The audio render request of `_synthesize_audio` (services.py
lines 325-328). -/
def audioReq (text voice_id engine : String) (sample_rate_hz : Nat) : SynthReq :=
  { text := text, voiceId := voice_id, outputFormat := "mp3", engine := engine,
    sampleRate := some sample_rate_hz, speechMarks := false }

/-- The marker render request of `_synthesize_marks` (services.py
lines 309-312). -/
def marksReq (text voice_id engine : String) : SynthReq :=
  { text := text, voiceId := voice_id, outputFormat := "json", engine := engine,
    sampleRate := none, speechMarks := true }

/-- `_synthesize_audio` (services.py lines 323-337): try the requested
engine; if that call raises and the requested engine was "neural", retry
once with "standard"; otherwise let the exception propagate (`none`).
The second component of the payload records the engine actually used by
the successful call. -/
def synthesize_audio (polly : PollyOracle) (text voice_id engine : String)
    (sample_rate_hz : Nat) : Option (List Nat × String) :=
  if polly.ok (audioReq text voice_id engine sample_rate_hz) then
    some (polly.audioBytes (audioReq text voice_id engine sample_rate_hz), engine)
  else if engine = "neural" then
    if polly.ok (audioReq text voice_id "standard" sample_rate_hz) then
      some (polly.audioBytes (audioReq text voice_id "standard" sample_rate_hz), "standard")
    else none
  else none

/-- The line loop of `_synthesize_marks` (services.py lines 313-321):
malformed lines are skipped, events with `type == "viseme"` are kept in
order as `{time_ms, viseme}`. -/
def parseMarkLines (lines : List (Option RawMark)) : List VisemeRawEvt :=
  lines.filterMap (fun l =>
    l.bind (fun m =>
      if m.type == "viseme" then some ⟨m.time, m.value⟩ else none))

/-- `_synthesize_marks` (services.py lines 308-321).  There is no engine
fallback here: a raising call propagates (`none`).  The second component
records the engine used, which is always the requested engine. -/
def synthesize_marks (polly : PollyOracle) (text voice_id engine : String) :
    Option (List VisemeRawEvt × String) :=
  if polly.ok (marksReq text voice_id engine) then
    some (parseMarkLines (polly.markLines (marksReq text voice_id engine)), engine)
  else none

/-- `synthesize_with_visemes` (services.py lines 339-349): pick a voice,
render audio, render markers; a raising render propagates (`none`). -/
def synthesize_with_visemes (polly : PollyOracle)
    (listVoicesByLang : String → List Voice) (supportsNeural : String → Bool)
    (text target_lang : String) (user_gender : Option String) (neural_only : Bool)
    (sample_rate_hz : Nat) :
    Except PickErr (Option ((List Nat × String) × (List VisemeRawEvt × String))) :=
  match pick_voice listVoicesByLang supportsNeural target_lang user_gender neural_only with
  | .error e => .error e
  | .ok (voice_id, engine) =>
    .ok (do
      let audio ← synthesize_audio polly text voice_id engine sample_rate_hz
      let marks ← synthesize_marks polly text voice_id engine
      pure (audio, marks))

/-! ## Transcription stage (services.py lines 196-298) -/

/-- A JSON value, modelling the parsed Transcribe result document. -/
inductive JVal where
  | str (s : String)
  | num (n : Int)
  | arr (xs : List JVal)
  | obj (kvs : List (String × JVal))
  | null
  deriving Repr

/-- Python `data[k]` on a dict, `None`-free model: `none` when the value is
not a dict or the key is missing (a KeyError/TypeError). -/
def jField (k : String) : JVal → Option JVal
  | .obj kvs => (kvs.find? (fun p => p.1 == k)).map (fun p => p.2)
  | _ => none

/-- Python `data[i]` on a list: `none` when out of range or not a list. -/
def jIndex (i : Nat) : JVal → Option JVal
  | .arr xs => xs.get? i
  | _ => none

/-- Python `.strip()` on a value: only defined on strings (`AttributeError`
otherwise). -/
def jString : JVal → Option String
  | .str s => some s
  | _ => none

/-- The transcript extraction chain
`data["results"]["transcripts"][0]["transcript"].strip()` of
services.py lines 248 and 296; `none` when any step raises. -/
def transcriptOfDoc (doc : JVal) : Option String :=
  ((((jField "results" doc).bind (jField "transcripts")).bind
      (jIndex 0)).bind (jField "transcript")).bind
    (fun v => (jString v).map pyStrip)

/-- The whole `try/except` around the extraction (services.py lines 247-250
and 295-298): any failure yields the empty string as a normal return. -/
def extractTranscript (doc : JVal) : String :=
  (transcriptOfDoc doc).getD ""

/-- The Transcribe/S3 environment seen by one transcription invocation:
whether `start_transcription_job` succeeds, the job status string returned
by the i-th `get_transcription_job` poll, its failure reason rendering,
the object keys listed under the job name, and the parsed result document
fetched per key (`none` = `get_object` or `json.loads` raised). -/
structure TranscribeEnv where
  startOk : Bool
  status : Nat → String
  failureReason : Nat → String
  listing : List String
  fetchDoc : String → Option JVal

/-- The output-key scan on COMPLETED (services.py lines 230-233 and
279-282): first listed key ending in ".json". -/
def findJsonKey (keys : List String) : Option String :=
  keys.find? (fun k => strEndsWith k ".json")

/-- Outcome of the polling loop body (services.py lines 226-238 and
275-286). -/
inductive PollOutcome where
  | completedKey (out_key : Option String)
  | failed (reason : String)
  | timedOut
  deriving Repr, DecidableEq

/-- The polling loop `while time.time() - t0 < TIMEOUT` with
`time.sleep(INTERVAL)` at the end of each non-terminal iteration.  Polls
are instantaneous in the model, so the i-th poll happens at elapsed time
`i * interval`; the second component of the result is the total time the
loop blocked.  `fuel` is an upper bound on the remaining iterations: with
`fuel = timeout + 1` at `i = 0` and `interval ≥ 1` the fuel never runs out
before the loop condition fails, so the fuel-exhaustion branch (which
mirrors the loop-condition exit) is unreachable.  (With `interval = 0` the
Python loop would poll without bound; the model times out instead.) -/
def pollAux (env : TranscribeEnv) (timeout interval : Nat) :
    Nat → Nat → PollOutcome × Nat
  | i, 0 => (.timedOut, i * interval)
  | i, fuel + 1 =>
    if i * interval < timeout then
      if env.status i = "COMPLETED" then
        (.completedKey (findJsonKey env.listing), i * interval)
      else if env.status i = "FAILED" then
        (.failed (env.failureReason i), i * interval)
      else
        pollAux env timeout interval (i + 1) fuel
    else
      (.timedOut, i * interval)

/-- The polling loop of `transcribe_s3`/`transcribe_audio`, started at the
first poll with adequate fuel. -/
def pollLoop (env : TranscribeEnv) (timeout interval : Nat) : PollOutcome × Nat :=
  pollAux env timeout interval 0 (timeout + 1)

/-- `transcribe_s3` (services.py lines 254-298).  `timeout` models
`TRANSCRIBE_WAIT_TIMEOUT` and `interval` models
`TRANSCRIBE_POLL_INTERVAL`. -/
def transcribe_s3 (env : TranscribeEnv) (bucket key : String)
    (timeout interval : Nat) : PyResult String :=
  if bucket = "" ∨ key = "" then
    .httpError 400 "S3 bucket/key are required for transcription."
  else if !env.startOk then
    .httpError 500 "Transcribe start failed (S3)"
  else
    match (pollLoop env timeout interval).1 with
    | .failed reason => .httpError 422 ("Transcription failed: " ++ reason)
    | .timedOut => .httpError 504 "Transcription timed out (S3)."
    | .completedKey none => .httpError 504 "Transcription timed out (S3)."
    | .completedKey (some out_key) =>
      match env.fetchDoc out_key with
      | none => .pyError "get_object raised"
      | some doc => .ok (extractTranscript doc)

/-- An object-storage side effect of `transcribe_audio`. -/
inductive S3Op where
  | put (key : String)
  | delete (key : String)
  deriving Repr, DecidableEq

/-- `os.path.splitext(name)[1]`: the suffix starting at the last dot that
has at least one non-dot character before it in the name, else "". -/
def pySplitextExt (name : String) : String :=
  let cs := name.toList
  let starts := (List.range cs.length).filter (fun i =>
    (cs.getD i ' ' == '.') && (cs.take i).any (fun c => c != '.'))
  match starts.getLast? with
  | some i => String.mk (cs.drop i)
  | none => ""

/-- `transcribe_audio` (services.py lines 196-250), the upload-then-
transcribe variant.  The uploaded bytes, filename and the request's uuid
hex are parameters; the second component of the result is the ordered
trace of S3 staging side effects (`put`/`delete`) the function performed
on its input object and on the result document object. -/
def transcribe_audio (env : TranscribeEnv) (content : List Nat)
    (filename : Option String) (uuidHex : String)
    (timeout interval : Nat) : PyResult String × List S3Op :=
  if content.isEmpty then
    (.httpError 400 "Empty audio file.", [])
  else if 10 * 1024 * 1024 < content.length then
    (.httpError 413 "Audio file too large (>10MB).", [])
  else
    let ext0 := strToLower (pySplitextExt (filename.getD ""))
    let ext := if ext0 = "" then ".bin" else ext0
    let in_key := "transcribe/in/" ++ uuidHex ++ ext
    if !env.startOk then
      (.httpError 500 "Transcribe start failed", [.put in_key, .delete in_key])
    else
      match (pollLoop env timeout interval).1 with
      | .failed reason =>
        (.httpError 422 ("Transcription failed: " ++ reason),
         [.put in_key, .delete in_key])
      | .timedOut =>
        (.httpError 504 "Transcription timed out.", [.put in_key, .delete in_key])
      | .completedKey none =>
        (.httpError 504 "Transcription timed out.", [.put in_key, .delete in_key])
      | .completedKey (some out_key) =>
        match env.fetchDoc out_key with
        | none => (.pyError "get_object raised", [.put in_key, .delete in_key])
        | some doc =>
          (.ok (extractTranscript doc),
           [.put in_key, .delete in_key, .delete out_key])

/-! ## Voice pipeline (`pipeline_voice`, services.py lines 393-438) -/

/-- A pipeline stage invocation, recorded in order. -/
inductive StageCall where
  | transcribeCall
  | translateCall
  | synthesizeCall
  | s3SaveCall
  deriving Repr, DecidableEq

/-- The result envelope assembled by `pipeline_voice`
(services.py lines 428-438). -/
structure PipelineResp where
  s3_url : String
  visemes_mapped : List ShapeEvt
  source_text : String
  translated_text : String
  visemes_raw : Option (List VisemeRawEvt)
  transcript : Option String
  deriving Repr, DecidableEq

/-- All capability oracles a voice-pipeline invocation consumes. -/
structure PipelineEnv where
  tx : TranscribeEnv
  converse : String → String → Option String
  polly : PollyOracle
  listVoicesByLang : String → List Voice
  supportsNeural : String → Bool
  presignedUrl : String

/-- `pipeline_voice` (services.py lines 393-438): transcribe from S3,
require a non-empty transcript, translate, synthesize with visemes, save
the audio, assemble the envelope.  The second component records which
stages were invoked, in order. -/
def pipeline_voice (env : PipelineEnv) (bucket key current_lang target_lang : String)
    (user_gender : Option String) (style : Option String) (neural_only : Bool)
    (sample_rate_hz timeout interval : Nat)
    (include_visemes_raw return_transcript : Bool) :
    PyResult PipelineResp × List StageCall :=
  let calls := [StageCall.transcribeCall]
  match transcribe_s3 env.tx bucket key timeout interval with
  | .httpError c d => (.httpError c d, calls)
  | .pyError m => (.pyError m, calls)
  | .ok transcript =>
    if transcript = "" then
      (.httpError 422 "Transcribe returned empty transcript (S3).", calls)
    else
      let calls := calls ++ [StageCall.translateCall]
      match (translate_text_bedrock env.converse transcript current_lang target_lang style).1 with
      | .httpError c d => (.httpError c d, calls)
      | .pyError m => (.pyError m, calls)
      | .ok translated =>
        let calls := calls ++ [StageCall.synthesizeCall]
        match synthesize_with_visemes env.polly env.listVoicesByLang env.supportsNeural
            translated target_lang user_gender neural_only sample_rate_hz with
        | .error _ => (.httpError 422 "No Polly voices available.", calls)
        | .ok none => (.pyError "synthesize_speech raised", calls)
        | .ok (some ((_, _), (visemes_raw, _))) =>
          let calls := calls ++ [StageCall.s3SaveCall]
          (.ok
            { s3_url := env.presignedUrl
              visemes_mapped := map_visemes_to_shapes
                (visemes_raw.map (fun v => ⟨some v.time_ms, some v.viseme⟩))
              source_text := transcript
              translated_text := translated
              visemes_raw := if include_visemes_raw then some visemes_raw else none
              transcript := if return_transcript then some transcript else none },
           calls)

/-! ## Supported target languages (app/tts/routes_languages.py):
`TARGET_LANGUAGES` is `CURRENT_LANGUAGES` minus "ms-MY". -/

/-- The language codes of `CURRENT_LANGUAGES`
(routes_languages.py lines 14-58). -/
def CURRENT_LANGUAGE_CODES : List String :=
  ["ms-MY", "en-US", "en-AU", "en-GB", "en-IN", "en-NZ", "en-SG", "en-ZA",
   "en-GB-WLS", "arb", "ar-AE", "ca-ES", "yue-CN", "cmn-CN", "cs-CZ", "da-DK",
   "nl-BE", "nl-NL", "fi-FI", "fr-FR", "fr-BE", "fr-CA", "hi-IN", "de-DE",
   "de-AT", "de-CH", "is-IS", "it-IT", "ja-JP", "ko-KR", "nb-NO", "pl-PL",
   "pt-BR", "pt-PT", "ro-RO", "ru-RU", "es-ES", "es-MX", "es-US", "sv-SE",
   "tr-TR", "cy-GB"]

/-- The supported target-language codes
(routes_languages.py lines 60-62). -/
def TARGET_LANGUAGE_CODES : List String :=
  CURRENT_LANGUAGE_CODES.filter (fun c => c != "ms-MY")

/-! ## Theorems -/

theorem sortByKey_eq_nil_iff (lt : α → α → Bool) (xs : List α) :
    sortByKey lt xs = [] ↔ xs = [] := by
  constructor
  · intro h
    have hl := length_sortByKey lt xs
    rw [h] at hl
    exact List.length_eq_zero.mp hl.symm
  · intro h
    subst h
    rfl

/-- A catalog oracle whose every query is empty: the provider lists no
voices at all. -/
def emptyCatalog : String → List Voice := fun _ => []

/-- A one-voice catalog for "en-US", used as a concrete witness input. -/
def demoCatalog : String → List Voice := fun lc =>
  if lc = "en-US" then [⟨"Joanna", "Female", "en-US"⟩] else []

/-- C1 counterexample: when every catalog query yields no voices at all,
`_pick_voice` does not return a gender-keyed static default voice — it
raises HTTP 422 "No Polly voices available." (services.py line 122). -/
theorem pick_voice_empty_catalog_raises :
    pick_voice emptyCatalog (fun _ => false) "en-US" none true
      = .error .noVoices := rfl

/-- C1 (amended): whenever some catalog query of the candidate-pool
construction (target locale, near locales, or the full unfiltered catalog)
yields at least one voice, `_pick_voice` returns a usable
`(voice_id, engine)` pair with engine "neural" or "standard"; only an
entirely empty pool makes it raise. -/
theorem pick_voice_ok_of_candidates_nonempty
    (listVoicesByLang : String → List Voice) (supportsNeural : String → Bool)
    (target_lang : String) (user_gender : Option String) (neural_only : Bool)
    (h : buildCandidates listVoicesByLang target_lang ≠ []) :
    ∃ v t, pick_voice listVoicesByLang supportsNeural target_lang user_gender neural_only
        = .ok (v, t) ∧ (t = "neural" ∨ t = "standard") := by
  have hpool0 :
      (if ((buildCandidates listVoicesByLang target_lang).filter
            (genderMatches user_gender)).isEmpty
        then buildCandidates listVoicesByLang target_lang
        else (buildCandidates listVoicesByLang target_lang).filter
            (genderMatches user_gender)) ≠ [] := by
    split
    · exact h
    · next hne =>
      intro hnil
      rw [hnil] at hne
      simp at hne
  simp only [pick_voice]
  split
  · next heq =>
    exact absurd ((sortByKey_eq_nil_iff _ _).mp heq) hpool0
  · next top rest heq =>
    cases hfind : (top :: rest).find? (fun c => supportsNeural c.id) with
    | some c =>
      exact ⟨c.id, "neural", by rw [heq, hfind], Or.inl rfl⟩
    | none =>
      exact ⟨top.id, "standard", by rw [heq, hfind], Or.inr rfl⟩

/-- Witness for the amended C1 theorem at a concrete non-empty catalog. -/
theorem pick_voice_ok_of_candidates_nonempty_witness :
    ∃ v t, pick_voice demoCatalog (fun _ => false) "en-US" none true
        = .ok (v, t) ∧ (t = "neural" ∨ t = "standard") :=
  pick_voice_ok_of_candidates_nonempty demoCatalog (fun _ => false)
    "en-US" none true (by decide)

/-- C8: the candidate pool of `_pick_voice` is exactly the catalog query
result of the first locale in `[target_lang] + _NEAR_LOCALE[target_lang]`
whose query is non-empty, and the full unfiltered catalog (query with
`lang = ""`) when no candidate locale yields any voice. -/
theorem candidate_pool_near_locale (listVoicesByLang : String → List Voice)
    (target_lang : String) :
    buildCandidates listVoicesByLang target_lang =
      match (target_lang :: NEAR_LOCALE target_lang).find?
          (fun lc => !(listVoicesByLang lc).isEmpty) with
      | some lc => listVoicesByLang lc
      | none => listVoicesByLang "" := by
  unfold buildCandidates
  rw [listFirstNonempty_eq_find]
  cases hf : (target_lang :: NEAR_LOCALE target_lang).find?
      (fun lc => !(listVoicesByLang lc).isEmpty) with
  | none => simp
  | some lc =>
    have hne : (listVoicesByLang lc).isEmpty = false := by
      have := List.find?_some hf
      simpa using this
    simp [hne]

/-- A translation provider that answers every request with "BONJOUR". -/
def constProvider : String → String → Option String := fun _ _ => some "BONJOUR"

/-- C2 counterexample: "xx-ZZ" is outside the supported target set, yet
`translate_text_bedrock` invokes the provider (second component `true`)
and returns the provider's output instead of the input text: the
round-trip identity `translate(x, s, unsupported) = x` fails, and a
provider call is made. -/
theorem translate_unsupported_target_counterexample :
    ("xx-ZZ" ∉ TARGET_LANGUAGE_CODES) ∧
    translate_text_bedrock constProvider "hello" "en-US" "xx-ZZ" none
      = (.ok "BONJOUR", true) ∧
    ("BONJOUR" : String) ≠ "hello" := by
  refine ⟨by decide, rfl, by decide⟩

/-- C2 (amended): `translate_text_bedrock` never inspects the target
language: for every non-whitespace input text it invokes the translation
provider — whatever the target language is — and returns the provider's
trimmed output on success; there is no skip-if-unsupported policy. -/
theorem translate_always_calls_provider
    (converse : String → String → Option String)
    (text src_lang tgt_lang : String) (style : Option String)
    (h : pyStrip text ≠ "") :
    (translate_text_bedrock converse text src_lang tgt_lang style).2 = true ∧
    (∀ out, converse (systemPrompt style) (translatePrompt src_lang tgt_lang text) = some out →
      (translate_text_bedrock converse text src_lang tgt_lang style).1 = .ok (pyStrip out)) := by
  have hcond : ¬(text = "" ∨ pyStrip text = "") := by
    rintro (h1 | h1)
    · subst h1
      exact h rfl
    · exact h h1
  constructor
  · unfold translate_text_bedrock
    rw [if_neg hcond]
    cases converse (systemPrompt style) (translatePrompt src_lang tgt_lang text) <;> rfl
  · intro out hout
    unfold translate_text_bedrock
    rw [if_neg hcond, hout]

/-- Witness for the amended C2 theorem at a concrete non-empty text. -/
theorem translate_always_calls_provider_witness :
    (translate_text_bedrock constProvider "hi" "en-US" "xx-ZZ" none).2 = true ∧
    (∀ out, constProvider (systemPrompt none) (translatePrompt "en-US" "xx-ZZ" "hi") = some out →
      (translate_text_bedrock constProvider "hi" "en-US" "xx-ZZ" none).1 = .ok (pyStrip out)) :=
  translate_always_calls_provider constProvider "hi" "en-US" "xx-ZZ" none (by decide)

/-- C9: for every provider and languages, empty or whitespace-only input
text makes `translate_text_bedrock` return the empty string without
invoking the provider. -/
theorem translate_empty_no_call (converse : String → String → Option String)
    (text src_lang tgt_lang : String) (style : Option String)
    (h : pyStrip text = "") :
    translate_text_bedrock converse text src_lang tgt_lang style = (.ok "", false) := by
  unfold translate_text_bedrock
  rw [if_pos (Or.inr h)]

/-- Witness for the C9 theorem at a concrete whitespace-only text. -/
theorem translate_empty_no_call_witness :
    translate_text_bedrock constProvider "  " "en-US" "fr-FR" none = (.ok "", false) :=
  translate_empty_no_call constProvider "  " "en-US" "fr-FR" none (by decide)

/-- A Polly synthesis oracle on which the neural audio render raises but
the standard audio render and the neural marker render both succeed. -/
def fallbackPolly : PollyOracle where
  ok := fun r => !((r.outputFormat == "mp3") && (r.engine == "neural"))
  audioBytes := fun _ => [7]
  markLines := fun _ => [some ⟨"viseme", 0, "p"⟩]

/-- C3 counterexample: on the tier-fallback path the engine actually used
for the audio render ("standard", after the neural call raised) differs
from the engine used for the marker render ("neural"), so the two renders
are not aligned on every execution path. -/
theorem synthesis_engine_mismatch_counterexample :
    synthesize_with_visemes fallbackPolly demoCatalog (fun _ => true)
        "hi" "en-US" none true 22050
      = .ok (some (([7], "standard"), ([⟨0, "p"⟩], "neural"))) ∧
    ("standard" : String) ≠ "neural" := by
  exact ⟨rfl, by decide⟩

/-- C3 (amended): both renders are issued with the same voice id, text and
requested engine, and whenever the audio render succeeds at the requested
engine (no tier fallback) the engine actually used for the audio equals
the engine used for the marker render; but when the neural audio render
raises, `_synthesize_audio` retries with "standard" while
`_synthesize_marks` still renders with "neural", so the engines used can
differ on the fallback path. -/
theorem synthesis_engines_align_without_fallback (polly : PollyOracle)
    (text voice_id engine : String) (sample_rate_hz : Nat)
    (hok : polly.ok (audioReq text voice_id engine sample_rate_hz) = true) :
    ((audioReq text voice_id engine sample_rate_hz).text = (marksReq text voice_id engine).text ∧
      (audioReq text voice_id engine sample_rate_hz).voiceId = (marksReq text voice_id engine).voiceId ∧
      (audioReq text voice_id engine sample_rate_hz).engine = (marksReq text voice_id engine).engine) ∧
    synthesize_audio polly text voice_id engine sample_rate_hz
      = some (polly.audioBytes (audioReq text voice_id engine sample_rate_hz), engine) ∧
    (∀ res, synthesize_marks polly text voice_id engine = some res → res.2 = engine) := by
  refine ⟨⟨rfl, rfl, rfl⟩, ?_, ?_⟩
  · unfold synthesize_audio
    rw [if_pos hok]
  · intro res hres
    unfold synthesize_marks at hres
    by_cases hm : polly.ok (marksReq text voice_id engine) = true
    · rw [if_pos hm] at hres
      cases hres
      rfl
    · rw [if_neg hm] at hres
      exact absurd hres (by simp)

/-- A Polly oracle on which every render succeeds. -/
def allOkPolly : PollyOracle where
  ok := fun _ => true
  audioBytes := fun _ => [1]
  markLines := fun _ => []

/-- Witness for the amended C3 theorem on an oracle where the neural audio
render succeeds. -/
theorem synthesis_engines_align_witness :
    ((audioReq "hi" "Joanna" "neural" 22050).text = (marksReq "hi" "Joanna" "neural").text ∧
      (audioReq "hi" "Joanna" "neural" 22050).voiceId = (marksReq "hi" "Joanna" "neural").voiceId ∧
      (audioReq "hi" "Joanna" "neural" 22050).engine = (marksReq "hi" "Joanna" "neural").engine) ∧
    synthesize_audio allOkPolly "hi" "Joanna" "neural" 22050
      = some (allOkPolly.audioBytes (audioReq "hi" "Joanna" "neural" 22050), "neural") ∧
    (∀ res, synthesize_marks allOkPolly "hi" "Joanna" "neural" = some res → res.2 = "neural") :=
  synthesis_engines_align_without_fallback allOkPolly "hi" "Joanna" "neural" 22050 rfl

/-- Every value of the symbol table is a canonical shape. -/
theorem vmLookup_shape_canonical (symbol : String) :
    (vmLookup symbol).getD "AX" ∈ canonicalShapes := by
  unfold vmLookup
  cases hf : VISEME_MAP.find? (fun p => p.1 == symbol) with
  | none => simp [canonicalShapes]
  | some p =>
    have hmem : p ∈ VISEME_MAP := List.mem_of_find?_eq_some hf
    have hall : ∀ q ∈ VISEME_MAP, q.2 ∈ canonicalShapes := by decide
    simpa using hall p hmem

/-- C7: viseme normalization is total — every raw event, including one
whose symbol is missing or unrecognized, produces exactly one output event
at the same position with a defined canonical shape (unrecognized symbols
get the default shape "AX"), so the output has the same length and order
as the input. -/
theorem viseme_normalization_total (visemes_raw : List RawEvt) :
    (map_visemes_to_shapes visemes_raw).length = visemes_raw.length ∧
    (∀ i e, visemes_raw.get? i = some e →
      (map_visemes_to_shapes visemes_raw).get? i = some (mapOneViseme e)) ∧
    (∀ e : RawEvt, (mapOneViseme e).shape ∈ canonicalShapes) ∧
    (∀ e : RawEvt, vmLookup (e.viseme.getD "") = none → (mapOneViseme e).shape = "AX") := by
  refine ⟨by simp [map_visemes_to_shapes], ?_, ?_, ?_⟩
  · intro i e h
    simp only [map_visemes_to_shapes, List.get?_eq_getElem?, List.getElem?_map] at *
    rw [h]
    rfl
  · intro e
    exact vmLookup_shape_canonical _
  · intro e h
    simp [mapOneViseme, h]

/-- Witness for the C7 theorem: a singleton list with an unrecognized
symbol produces one event with the default shape at the same position. -/
theorem viseme_normalization_total_witness :
    (map_visemes_to_shapes [⟨some 5, some "zz"⟩]).get? 0 = some (mapOneViseme ⟨some 5, some "zz"⟩) :=
  (viseme_normalization_total [⟨some 5, some "zz"⟩]).2.1 0 ⟨some 5, some "zz"⟩ rfl

theorem pollAux_never_terminal (env : TranscribeEnv) (timeout interval : Nat)
    (h : ∀ i, i * interval < timeout →
      env.status i ≠ "COMPLETED" ∧ env.status i ≠ "FAILED") :
    ∀ fuel i, (pollAux env timeout interval i fuel).1 = .timedOut := by
  intro fuel
  induction fuel with
  | zero => intro i; rfl
  | succ fuel ih =>
    intro i
    simp only [pollAux]
    by_cases hcond : i * interval < timeout
    · rw [if_pos hcond, if_neg (h i hcond).1, if_neg (h i hcond).2]
      exact ih (i + 1)
    · rw [if_neg hcond]

theorem pollAux_elapsed_bound (env : TranscribeEnv) (timeout interval : Nat) :
    ∀ fuel i, i * interval < timeout + interval →
      (pollAux env timeout interval i fuel).2 < timeout + interval := by
  intro fuel
  induction fuel with
  | zero => intro i h; exact h
  | succ fuel ih =>
    intro i h
    simp only [pollAux]
    by_cases hcond : i * interval < timeout
    · rw [if_pos hcond]
      by_cases h1 : env.status i = "COMPLETED"
      · rw [if_pos h1]
        exact h
      · rw [if_neg h1]
        by_cases h2 : env.status i = "FAILED"
        · rw [if_pos h2]
          exact h
        · rw [if_neg h2]
          apply ih
          calc (i + 1) * interval = i * interval + interval := by ring
            _ < timeout + interval := by omega
    · rw [if_neg hcond]
      exact h

/-- C4: a transcription job that never reaches COMPLETED or FAILED at any
poll before the deadline makes `transcribe_s3` fail with the HTTP 504
timeout error, which is distinct from the HTTP 422 FAILED error for every
failure reason, and the polling loop blocks strictly less than
`deadline + poll_interval`. -/
theorem transcription_timeout_distinct (env : TranscribeEnv) (bucket key : String)
    (timeout interval : Nat) (hb : bucket ≠ "") (hk : key ≠ "")
    (hs : env.startOk = true) (hΔ : 1 ≤ interval)
    (hnt : ∀ i, i * interval < timeout →
      env.status i ≠ "COMPLETED" ∧ env.status i ≠ "FAILED") :
    transcribe_s3 env bucket key timeout interval
        = .httpError 504 "Transcription timed out (S3)." ∧
    (∀ reason, (PyResult.httpError 504 "Transcription timed out (S3)." : PyResult String)
        ≠ .httpError 422 ("Transcription failed: " ++ reason)) ∧
    (pollLoop env timeout interval).2 < timeout + interval := by
  refine ⟨?_, ?_, ?_⟩
  · unfold transcribe_s3
    rw [if_neg (by simp [hb, hk]), hs]
    have hres : (pollLoop env timeout interval).1 = .timedOut :=
      pollAux_never_terminal env timeout interval hnt (timeout + 1) 0
    rw [hres]
    rfl
  · intro reason hcontra
    have := (PyResult.httpError.injEq _ _ _ _).mp hcontra
    omega
  · exact pollAux_elapsed_bound env timeout interval (timeout + 1) 0 (by omega)

/-- A Transcribe environment whose job never leaves IN_PROGRESS. -/
def stuckJobEnv : TranscribeEnv where
  startOk := true
  status := fun _ => "IN_PROGRESS"
  failureReason := fun _ => "None"
  listing := []
  fetchDoc := fun _ => none

/-- Witness for the C4 theorem at a job stuck IN_PROGRESS with the default
45-second deadline and 2-second poll interval. -/
theorem transcription_timeout_distinct_witness :
    transcribe_s3 stuckJobEnv "bucket" "key" 45 2
        = .httpError 504 "Transcription timed out (S3)." ∧
    (∀ reason, (PyResult.httpError 504 "Transcription timed out (S3)." : PyResult String)
        ≠ .httpError 422 ("Transcription failed: " ++ reason)) ∧
    (pollLoop stuckJobEnv 45 2).2 < 45 + 2 :=
  transcription_timeout_distinct stuckJobEnv "bucket" "key" 45 2
    (by decide) (by decide) rfl (by decide)
    (fun _ _ => ⟨show ("IN_PROGRESS" : String) ≠ "COMPLETED" by decide,
                 show ("IN_PROGRESS" : String) ≠ "FAILED" by decide⟩)

/-- C10: when the polling loop resolves COMPLETED with a result object
whose document either lacks the expected results/transcripts structure
(extraction raises, modelled by `transcriptOfDoc doc = none`) or contains
a genuinely empty transcript, `transcribe_s3` returns the empty string as
a successful result — the two cases are indistinguishable. -/
theorem completed_malformed_doc_yields_ok_empty (env : TranscribeEnv)
    (bucket key : String) (timeout interval : Nat) (out_key : String) (doc : JVal)
    (hb : bucket ≠ "") (hk : key ≠ "") (hs : env.startOk = true)
    (hpoll : (pollLoop env timeout interval).1 = .completedKey (some out_key))
    (hdoc : env.fetchDoc out_key = some doc)
    (hmal : transcriptOfDoc doc = none ∨ transcriptOfDoc doc = some "") :
    transcribe_s3 env bucket key timeout interval = .ok "" := by
  unfold transcribe_s3
  rw [if_neg (by simp [hb, hk]), hs, hpoll]
  simp only [hdoc]
  unfold extractTranscript
  rcases hmal with hm | hm <;> rw [hm] <;> rfl

/-- A Transcribe environment that completes immediately but whose result
document is an empty JSON object (no "results" key). -/
def malformedDocEnv : TranscribeEnv where
  startOk := true
  status := fun _ => "COMPLETED"
  failureReason := fun _ => "None"
  listing := ["job-x.json"]
  fetchDoc := fun _ => some (JVal.obj [])

/-- Witness for the C10 theorem on a COMPLETED job whose result document
is an empty object: the stage succeeds with the empty transcript. -/
theorem completed_malformed_doc_witness :
    transcribe_s3 malformedDocEnv "bucket" "key" 45 2 = .ok "" :=
  completed_malformed_doc_yields_ok_empty malformedDocEnv "bucket" "key" 45 2
    "job-x.json" (JVal.obj []) (by decide) (by decide) rfl rfl rfl (Or.inl rfl)

/-- C5: in the upload-then-transcribe variant, every staging object that
`transcribe_audio` puts is also deleted in the same invocation, on every
exit path — success, provider failure, start failure, fetch failure, and
timeout alike. -/
theorem transcribe_audio_cleanup (env : TranscribeEnv) (content : List Nat)
    (filename : Option String) (uuidHex : String) (timeout interval : Nat)
    (k : String)
    (h : S3Op.put k ∈ (transcribe_audio env content filename uuidHex timeout interval).2) :
    S3Op.delete k ∈ (transcribe_audio env content filename uuidHex timeout interval).2 := by
  revert h
  simp only [transcribe_audio]
  repeat' split
  all_goals intro h
  all_goals simp_all

/-- Witness for the C5 theorem on a completing job with an uploaded
"a.mp3" file: the staged input object is deleted. -/
theorem transcribe_audio_cleanup_witness :
    S3Op.delete "transcribe/in/cafe.mp3"
      ∈ (transcribe_audio malformedDocEnv [1] (some "a.mp3") "cafe" 45 2).2 :=
  transcribe_audio_cleanup malformedDocEnv [1] (some "a.mp3") "cafe" 45 2
    "transcribe/in/cafe.mp3" (by decide)

/-- C6: when transcription yields an empty transcript, the voice pipeline
fails with the HTTP 422 recognition error and the translation and
synthesis stages are never invoked: the call log stops at the
transcription stage. -/
theorem pipeline_voice_empty_transcript (env : PipelineEnv)
    (bucket key current_lang target_lang : String)
    (user_gender style : Option String) (neural_only : Bool)
    (sample_rate_hz timeout interval : Nat)
    (include_visemes_raw return_transcript : Bool)
    (h : transcribe_s3 env.tx bucket key timeout interval = .ok "") :
    pipeline_voice env bucket key current_lang target_lang user_gender style
        neural_only sample_rate_hz timeout interval include_visemes_raw return_transcript
      = (.httpError 422 "Transcribe returned empty transcript (S3).",
         [StageCall.transcribeCall]) := by
  unfold pipeline_voice
  rw [h]
  rfl

/-- A pipeline environment whose transcription stage completes with an
empty transcript. -/
def emptyTranscriptPipelineEnv : PipelineEnv where
  tx := malformedDocEnv
  converse := fun _ _ => some "BONJOUR"
  polly := allOkPolly
  listVoicesByLang := demoCatalog
  supportsNeural := fun _ => true
  presignedUrl := "https://presigned.example/url"

/-- Witness for the C6 theorem on a concrete pipeline environment with an
empty transcript. -/
theorem pipeline_voice_empty_transcript_witness :
    pipeline_voice emptyTranscriptPipelineEnv "bucket" "key" "en-US" "fr-FR"
        none none true 22050 45 2 false true
      = (.httpError 422 "Transcribe returned empty transcript (S3).",
         [StageCall.transcribeCall]) :=
  pipeline_voice_empty_transcript emptyTranscriptPipelineEnv "bucket" "key"
    "en-US" "fr-FR" none none true 22050 45 2 false true rfl

end Avatar
